import Mathlib

/-!
Verification of the Byteflow MCP health-check server (src/server.py).

The Python source is shallowly embedded: the remote HTTP interaction is
modelled by a `RemoteBehavior` value describing what the single outbound
request does (the parsed response on success, or the exception it raises),
Python exceptions become the inductive type `PyExc`, and fallible Python
code returns `Except PyExc`.  Python values that can appear in parsed JSON
bodies become `PyValue`, with `pyStr` / `pyRepr` embedding Python's
`str()` / `repr()` rendering as used by f-strings and `str(dict)`.
-/

namespace Server

/-- `API_BASE_URL` constant from server.py. -/
def API_BASE_URL : String := "https://apidoc.byteflow.bot"

/-- `CHARACTER_LIMIT` constant from server.py. -/
def CHARACTER_LIMIT : Nat := 25000

/-- The `ResponseFormat(str, Enum)` from server.py with members
`MARKDOWN = "markdown"` and `JSON = "json"`. -/
inductive ResponseFormat where
  | MARKDOWN : ResponseFormat
  | JSON : ResponseFormat
deriving DecidableEq

/-- The string value carried by each `ResponseFormat` enum member. -/
def ResponseFormat.value : ResponseFormat → String
  | .MARKDOWN => "markdown"
  | .JSON => "json"

/-- The pydantic input model `ByteflowGetHealthInput`: a single field
`response_format` defaulting to `ResponseFormat.MARKDOWN`. -/
structure ByteflowGetHealthInput where
  response_format : ResponseFormat := ResponseFormat.MARKDOWN
deriving DecidableEq

/-- Python values as they occur in parsed JSON bodies (the result of
`response.json()`): `None`, booleans, integers, strings, lists and
string-keyed dictionaries. -/
inductive PyValue where
  | pynone : PyValue
  | pybool (b : Bool) : PyValue
  | pyint (n : Int) : PyValue
  | pystr (s : String) : PyValue
  | pylist (xs : List PyValue) : PyValue
  | pydict (kvs : List (String × PyValue)) : PyValue

/-- One escaped character of a Python string `repr`, given the chosen
quote character `q`. -/
def pyEscapeChar (q : Char) (c : Char) : List Char :=
  if c = '\\' then ['\\', '\\']
  else if c = q then ['\\', q]
  else if c = '\n' then ['\\', 'n']
  else if c = '\r' then ['\\', 'r']
  else if c = '\t' then ['\\', 't']
  else [c]

/-- Escape every character of a string body for Python string `repr`. -/
def pyEscape (q : Char) : List Char → List Char
  | [] => []
  | c :: cs => pyEscapeChar q c ++ pyEscape q cs

/-- Python `repr` of a string: single quotes by default, double quotes when
the string contains a single quote but no double quote, with the quote
character, backslashes and common control characters escaped. -/
def pyReprStr (s : String) : String :=
  let q : Char := if s.data.contains '\'' && !(s.data.contains '"') then '"' else '\''
  String.mk (q :: (pyEscape q s.data ++ [q]))

/-- Python `str.join` as used when rendering list/dict contents. -/
def joinSep (sep : String) : List String → String
  | [] => ""
  | [x] => x
  | x :: xs => x ++ sep ++ joinSep sep xs

/-- Python `repr` of a `PyValue` (which is also what `str()` produces for
the elements of a list or dictionary). -/
def pyRepr : PyValue → String
  | .pynone => "None"
  | .pybool b => if b then "True" else "False"
  | .pyint n => toString n
  | .pystr s => pyReprStr s
  | .pylist xs => "[" ++ joinSep ", " (xs.attach.map (fun x => pyRepr x.1)) ++ "]"
  | .pydict kvs =>
      "\x7b" ++ joinSep ", " (kvs.attach.map (fun kv => pyReprStr kv.1.1 ++ ": " ++ pyRepr kv.1.2)) ++ "\x7d"
decreasing_by
  · have := List.sizeOf_lt_of_mem x.2
    simp [PyValue.pylist.sizeOf_spec]
    omega
  · have h1 := List.sizeOf_lt_of_mem kv.2
    have h2 : sizeOf kv.1.2 < sizeOf kv.1 := by
      obtain ⟨a, b⟩ := kv.1
      simp
    simp [PyValue.pydict.sizeOf_spec]
    omega

/-- Python `str()` of a `PyValue`, as applied by f-string interpolation and
by `str(...)` on the dictionaries built in `byteflow_get_health`: a string
renders as itself, everything else as its `repr`. -/
def pyStr : PyValue → String
  | .pystr s => s
  | v => pyRepr v

/-- The part of an `httpx.Response` the server reads on the error path:
the numeric status code, the body text, and the result of parsing that
body as JSON (`none` when the body is not valid JSON). -/
structure Response where
  status_code : Nat
  text : String
  jsonBody : Option PyValue

/-- Python exceptions that can reach the server's error handling:
`httpx.HTTPStatusError` (carrying the response), `httpx.TimeoutException`,
`httpx.ReadError`, other `httpx.RequestError`s such as `ConnectError`,
`json.JSONDecodeError`, and arbitrary other exceptions (type name and
message). -/
inductive PyExc where
  | httpStatusError (response : Response) : PyExc
  | timeoutException (msg : String) : PyExc
  | readError (msg : String) : PyExc
  | requestError (msg : String) : PyExc
  | jsonDecodeError (msg : String) : PyExc
  | otherException (typeName : String) (msg : String) : PyExc

/-- `Response.json()`: returns the parsed JSON body, and raises
`json.JSONDecodeError` (a `ValueError`, not an `httpx` transport error)
when the body is not valid JSON. -/
def Response.json (r : Response) : Except PyExc PyValue :=
  match r.jsonBody with
  | some v => Except.ok v
  | none => Except.error (PyExc.jsonDecodeError r.text)

/-- `isinstance(e, httpx.ReadError)`, used by the dead `except` clause in
`_handle_api_error`. -/
def PyExc.isReadError : PyExc → Bool
  | .readError _ => true
  | _ => false

/-- What the single outbound `GET api/health` does in a given invocation:
either the remote returns 2xx with a parsed JSON dictionary body (the
declared `-> dict` result of `_make_api_request`), or `raise_for_status`
raises an `httpx.HTTPStatusError` carrying the response, or the request
times out, fails at the transport level, or raises some other exception. -/
inductive RemoteBehavior where
  | success (response_data : List (String × PyValue)) : RemoteBehavior
  | statusError (response : Response) : RemoteBehavior
  | timeout (msg : String) : RemoteBehavior
  | networkError (msg : String) : RemoteBehavior
  | raisesOther (typeName : String) (msg : String) : RemoteBehavior

/-- `_make_api_request`: performs the single request and either returns the
parsed JSON dictionary or raises the corresponding exception. -/
def make_api_request : RemoteBehavior → Except PyExc (List (String × PyValue))
  | .success response_data => Except.ok response_data
  | .statusError response => Except.error (PyExc.httpStatusError response)
  | .timeout msg => Except.error (PyExc.timeoutException msg)
  | .networkError msg => Except.error (PyExc.requestError msg)
  | .raisesOther typeName msg => Except.error (PyExc.otherException typeName msg)

/-- `_handle_api_error` from server.py.  The `isinstance` chain is embedded
branch for branch; note that `except httpx.ReadError:` around
`e.response.json()` does not catch the `JSONDecodeError` that a non-JSON
body actually raises, so that exception propagates (`Except.error`). -/
def handle_api_error (e : PyExc) : Except PyExc String :=
  match e with
  | .httpStatusError r =>
      if r.status_code = 404 then Except.ok "Error: Resource not found."
      else if r.status_code = 403 then Except.ok "Error: Permission denied."
      else if r.status_code = 401 then Except.ok "Error: Authentication failed."
      else if r.status_code = 429 then Except.ok "Error: Rate limit exceeded."
      else
        match r.json with
        | Except.ok error_detail =>
            Except.ok ("Error: API request failed with status " ++ toString r.status_code
              ++ ": " ++ pyStr error_detail)
        | Except.error exc =>
            if exc.isReadError then
              Except.ok ("Error: API request failed with status " ++ toString r.status_code
                ++ ": " ++ r.text)
            else Except.error exc
  | .timeoutException _ => Except.ok "Error: Request timed out."
  | .readError msg => Except.ok ("Error: Network request failed: " ++ msg)
  | .requestError msg => Except.ok ("Error: Network request failed: " ++ msg)
  | .jsonDecodeError msg => Except.ok ("Error: JSONDecodeError: " ++ msg)
  | .otherException typeName msg => Except.ok ("Error: " ++ typeName ++ ": " ++ msg)

/-- Python `dict.get(key, default)`. -/
def dictGet (d : List (String × PyValue)) (key : String) (dflt : PyValue) : PyValue :=
  match d.find? (fun kv => kv.1 == key) with
  | some kv => kv.2
  | none => dflt

/-- Python slicing `s[:n]`: the first `n` characters of `s`. -/
def pySlice (s : String) (n : Nat) : String := String.mk (s.data.take n)

/-- The truncation block that `byteflow_get_health` applies to both
markdown outputs: `if len(output) > CHARACTER_LIMIT: output =
output[:CHARACTER_LIMIT - 3] + "..."`. -/
def applyCharacterLimit (output : String) : String :=
  if output.length > CHARACTER_LIMIT then pySlice output (CHARACTER_LIMIT - 3) ++ "..." else output

/-- The success branch of `byteflow_get_health`: extract `status` with
default `"UNKNOWN"`, then either `str({"status": status})` for JSON format
or the truncated `f"Byteflow API Status: {status}"` line for markdown. -/
def renderSuccess (fmt : ResponseFormat) (response_data : List (String × PyValue)) : String :=
  let status := dictGet response_data "status" (PyValue.pystr "UNKNOWN")
  match fmt with
  | .JSON => pyStr (PyValue.pydict [("status", status)])
  | .MARKDOWN => applyCharacterLimit ("Byteflow API Status: " ++ pyStr status)

/-- The error branch of `byteflow_get_health`: either
`str({"error": error_message})` for JSON format or the truncated
`f"Byteflow API Status: Error - {error_message}"` line for markdown. -/
def renderError (fmt : ResponseFormat) (error_message : String) : String :=
  match fmt with
  | .JSON => pyStr (PyValue.pydict [("error", PyValue.pystr error_message)])
  | .MARKDOWN => applyCharacterLimit ("Byteflow API Status: Error - " ++ error_message)

/-- The `byteflow_get_health` tool body: try the request and render the
success line, and on any raised exception run `_handle_api_error` and
render the error line.  An exception raised *inside* the `except` block
(by `_handle_api_error` itself) is not caught and propagates. -/
def byteflow_get_health (params : ByteflowGetHealthInput) (remote : RemoteBehavior) :
    Except PyExc String :=
  match make_api_request remote with
  | Except.ok response_data => Except.ok (renderSuccess params.response_format response_data)
  | Except.error e =>
      match handle_api_error e with
      | Except.ok error_message => Except.ok (renderError params.response_format error_message)
      | Except.error e2 => Except.error e2

/-- The enum coercion pydantic applies to the `response_format` field:
only the declared member values `"markdown"` and `"json"` are accepted. -/
def parseResponseFormat (s : String) : Option ResponseFormat :=
  if s == "markdown" then some ResponseFormat.MARKDOWN
  else if s == "json" then some ResponseFormat.JSON
  else none

/-- Input validation of `ByteflowGetHealthInput` as configured in
server.py: `extra='forbid'` rejects any field other than
`response_format`, an unknown enum value is rejected, and an absent
`response_format` takes the declared default `MARKDOWN`. -/
def validateInput (fields : List (String × String)) : Option ByteflowGetHealthInput :=
  if fields.all (fun kv => kv.1 == "response_format") then
    match fields.find? (fun kv => kv.1 == "response_format") with
    | some kv => (parseResponseFormat kv.2).map (fun f => { response_format := f })
    | none => some { response_format := ResponseFormat.MARKDOWN }
  else none

/-- A full inbound invocation: pydantic validation runs first, and only a
validly constructed input reaches the tool body (and hence the outbound
request, whose behaviour is `remote`).  A rejected input yields `none`
without the tool body ever running. -/
def invokeTool (fields : List (String × String)) (remote : RemoteBehavior) :
    Option (Except PyExc String) :=
  (validateInput fields).map (fun params => byteflow_get_health params remote)

/-- The markdown-format rendering *before* truncation, for the invocations
that produce a string: the success line on success, the error line when
`_handle_api_error` returns a message. -/
def renderMarkdownRaw (remote : RemoteBehavior) : Option String :=
  match make_api_request remote with
  | Except.ok response_data =>
      some ("Byteflow API Status: "
        ++ pyStr (dictGet response_data "status" (PyValue.pystr "UNKNOWN")))
  | Except.error e =>
      match handle_api_error e with
      | Except.ok error_message => some ("Byteflow API Status: Error - " ++ error_message)
      | Except.error _ => none

/-! ### Helper lemmas about strings and the embedded Python rendering -/

theorem strExt {a b : String} (h : a.data = b.data) : a = b := by
  cases a
  cases b
  cases h
  rfl

theorem strData_append (a b : String) : (a ++ b).data = a.data ++ b.data := rfl

theorem strLength_data (s : String) : s.length = s.data.length := rfl

theorem strApp_assoc (a b c : String) : a ++ b ++ c = a ++ (b ++ c) :=
  strExt (by simp [strData_append])

theorem pySlice_length (s : String) (n : Nat) : (pySlice s n).length = min n s.length :=
  List.length_take n s.data

theorem pySlice_append (a b : String) (n : Nat) (h : a.length ≤ n) :
    pySlice (a ++ b) n = a ++ pySlice b (n - a.length) := by
  apply strExt
  show (a ++ b).data.take n = a.data ++ b.data.take (n - a.length)
  rw [strData_append, List.take_append_eq_append_take, List.take_of_length_le h]
  rfl

/-- A 25000-character status string used to exercise the character limit. -/
def longStatus : String := String.mk (List.replicate 25000 'a')

theorem longStatus_length : longStatus.length = 25000 := List.length_replicate 25000 'a'

theorem replicate_contains_false (n : Nat) (c q : Char) (h : c ≠ q) :
    (List.replicate n c).contains q = false := by
  induction n with
  | zero => rfl
  | succ k ih =>
    simp only [List.replicate_succ, List.contains_cons, ih, Bool.or_false]
    simp [beq_eq_false_iff_ne]
    exact fun hh => h hh.symm

theorem pyEscape_replicate_a (n : Nat) :
    pyEscape '\'' (List.replicate n 'a') = List.replicate n 'a' := by
  induction n with
  | zero => rfl
  | succ k ih =>
    simp only [List.replicate_succ, pyEscape, ih]
    rfl

theorem pyReprStr_longStatus :
    pyReprStr longStatus = String.mk ('\'' :: (List.replicate 25000 'a' ++ ['\''])) := by
  rw [pyReprStr]
  have h1 : longStatus.data = List.replicate 25000 'a' := rfl
  rw [h1, replicate_contains_false 25000 'a' '\'' (by decide)]
  simp only [Bool.false_and, Bool.false_eq_true, if_false, pyEscape_replicate_a]

theorem pyReprStr_longStatus_length : (pyReprStr longStatus).length = 25002 := by
  rw [pyReprStr_longStatus, strLength_data]
  show ('\'' :: (List.replicate 25000 'a' ++ ['\''])).length = 25002
  rw [List.length_cons, List.length_append, List.length_replicate]
  rfl

theorem pyRepr_pystr (s : String) : pyRepr (PyValue.pystr s) = pyReprStr s := by
  simp [pyRepr]

theorem pyRepr_pydict_single (k : String) (v : PyValue) :
    pyRepr (PyValue.pydict [(k, v)]) = "\x7b" ++ (pyReprStr k ++ ": " ++ pyRepr v) ++ "\x7d" := by
  rw [pyRepr]
  simp [joinSep]

/-! ### Claims -/

/-- Claim C9: the tool is deterministic given the remote state,
format-for-format — two invocations with the same `response_format` and
identical remote behaviour return identical results. -/
theorem claim_C9 (p1 p2 : ByteflowGetHealthInput) (remote : RemoteBehavior)
    (h : p1.response_format = p2.response_format) :
    byteflow_get_health p1 remote = byteflow_get_health p2 remote := by
  cases p1
  cases p2
  cases h
  rfl

/-- Claim C9, witness: two markdown invocations against a timed-out remote
return the same string. -/
theorem claim_C9_witness :
    ByteflowGetHealthInput.response_format { response_format := ResponseFormat.MARKDOWN }
      = ByteflowGetHealthInput.response_format { response_format := ResponseFormat.MARKDOWN }
    ∧ byteflow_get_health { response_format := ResponseFormat.MARKDOWN } (RemoteBehavior.timeout "t")
      = byteflow_get_health { response_format := ResponseFormat.MARKDOWN } (RemoteBehavior.timeout "t") :=
  ⟨rfl, claim_C9 { response_format := ResponseFormat.MARKDOWN }
    { response_format := ResponseFormat.MARKDOWN } (RemoteBehavior.timeout "t") rfl⟩

/-- Claim C3, counterexample: for a 404 status error the classifier does
not return the bare sentence "Resource not found." — the actual return
value carries an "Error: " prefix. -/
theorem claim_C3_cex :
    handle_api_error (PyExc.httpStatusError
        { status_code := 404, text := "ignored body", jsonBody := none })
      ≠ Except.ok "Resource not found." := by
  intro h
  rw [show handle_api_error (PyExc.httpStatusError
      { status_code := 404, text := "ignored body", jsonBody := none })
      = Except.ok "Error: Resource not found." from rfl] at h
  exact absurd (Except.ok.inj h) (by decide)

/-- Claim C3, amended: for every HTTP status error with code 404, 403, 401
or 429, and regardless of the response body, the classifier returns the
fixed sentence prefixed with "Error: " — "Error: Resource not found.",
"Error: Permission denied.", "Error: Authentication failed.",
"Error: Rate limit exceeded." respectively. -/
theorem claim_C3 (text : String) (jsonBody : Option PyValue) :
    handle_api_error (PyExc.httpStatusError
        { status_code := 404, text := text, jsonBody := jsonBody })
      = Except.ok "Error: Resource not found."
    ∧ handle_api_error (PyExc.httpStatusError
        { status_code := 403, text := text, jsonBody := jsonBody })
      = Except.ok "Error: Permission denied."
    ∧ handle_api_error (PyExc.httpStatusError
        { status_code := 401, text := text, jsonBody := jsonBody })
      = Except.ok "Error: Authentication failed."
    ∧ handle_api_error (PyExc.httpStatusError
        { status_code := 429, text := text, jsonBody := jsonBody })
      = Except.ok "Error: Rate limit exceeded." :=
  ⟨rfl, rfl, rfl, rfl⟩

/-- Claim C4, code bug: for a non-special status error, the classifier
produces "Error: API request failed with status \x7bcode\x7d: \x7bbody\x7d" when
the body parses as JSON, but when the parse fails the intended fallback to
the raw body text never happens: the `except httpx.ReadError` clause does
not match the `JSONDecodeError` that `response.json()` raises, so the
exception propagates out of the classifier instead. -/
theorem claim_C4_bug :
    handle_api_error (PyExc.httpStatusError
        { status_code := 500, text := "\"oops\"", jsonBody := some (PyValue.pystr "oops") })
      = Except.ok "Error: API request failed with status 500: oops"
    ∧ handle_api_error (PyExc.httpStatusError
        { status_code := 500, text := "oops not json", jsonBody := none })
      = Except.error (PyExc.jsonDecodeError "oops not json") :=
  ⟨rfl, rfl⟩

/-- Claim C2, code bug: the tool does not always return a string: when the
remote answers with a status error outside 404/403/401/429 and a body that
is not valid JSON, the `JSONDecodeError` raised inside `_handle_api_error`
propagates past the tool boundary. -/
theorem claim_C2_bug :
    byteflow_get_health { response_format := ResponseFormat.MARKDOWN }
        (RemoteBehavior.statusError
          { status_code := 500, text := "Internal Server Error", jsonBody := none })
      = Except.error (PyExc.jsonDecodeError "Internal Server Error")
    ∧ byteflow_get_health { response_format := ResponseFormat.JSON }
        (RemoteBehavior.statusError
          { status_code := 500, text := "Internal Server Error", jsonBody := none })
      = Except.error (PyExc.jsonDecodeError "Internal Server Error") :=
  ⟨rfl, rfl⟩

/-- Claim C5: on a successful remote response the tool extracts the
"status" field with default "UNKNOWN" and renders it — the truncated
markdown status line, or the string form of the single-entry status
dictionary in JSON format; a remote payload mapping "status" to "UP" in
markdown format yields exactly "Byteflow API Status: UP", and an empty
payload yields "Byteflow API Status: UNKNOWN". -/
theorem claim_C5 (response_data : List (String × PyValue)) :
    byteflow_get_health { response_format := ResponseFormat.MARKDOWN }
        (RemoteBehavior.success response_data)
      = Except.ok (applyCharacterLimit ("Byteflow API Status: "
          ++ pyStr (dictGet response_data "status" (PyValue.pystr "UNKNOWN"))))
    ∧ byteflow_get_health { response_format := ResponseFormat.JSON }
        (RemoteBehavior.success response_data)
      = Except.ok (pyStr (PyValue.pydict
          [("status", dictGet response_data "status" (PyValue.pystr "UNKNOWN"))]))
    ∧ byteflow_get_health { response_format := ResponseFormat.MARKDOWN }
        (RemoteBehavior.success [("status", PyValue.pystr "UP")])
      = Except.ok "Byteflow API Status: UP"
    ∧ byteflow_get_health { response_format := ResponseFormat.MARKDOWN }
        (RemoteBehavior.success [])
      = Except.ok "Byteflow API Status: UNKNOWN" :=
  ⟨rfl, rfl, rfl, rfl⟩

/-- Claim C6, code bug: on a failing request the tool renders the
classified message into the error template — an HTTP 404 in markdown
format yields exactly "Byteflow API Status: Error - Error: Resource not
found." — but not for *every* failure: a status error outside
404/403/401/429 whose body is not valid JSON makes the classifier raise,
so no error string is rendered and the exception propagates. -/
theorem claim_C6_bug :
    byteflow_get_health { response_format := ResponseFormat.MARKDOWN }
        (RemoteBehavior.statusError { status_code := 404, text := "", jsonBody := none })
      = Except.ok "Byteflow API Status: Error - Error: Resource not found."
    ∧ byteflow_get_health { response_format := ResponseFormat.MARKDOWN }
        (RemoteBehavior.statusError
          { status_code := 502, text := "<html>Bad Gateway</html>", jsonBody := none })
      = Except.error (PyExc.jsonDecodeError "<html>Bad Gateway</html>") :=
  ⟨rfl, rfl⟩

/-- Claim C7: every input whose `response_format` is any value outside the
enum values "markdown" and "json" is rejected by validation, every input
containing any field other than `response_format` is rejected, and in both
cases the rejection is independent of the remote behaviour (no outbound
call is observable); an omitted `response_format` defaults to markdown,
and the two declared enum values are accepted. -/
theorem claim_C7 :
    (∀ s : String, s ≠ "markdown" → s ≠ "json" →
      validateInput [("response_format", s)] = none
      ∧ ∀ remote, invokeTool [("response_format", s)] remote = none)
    ∧ (∀ (fields : List (String × String)) (k v : String), (k, v) ∈ fields →
        k ≠ "response_format" →
      validateInput fields = none
      ∧ ∀ remote, invokeTool fields remote = none)
    ∧ validateInput [] = some { response_format := ResponseFormat.MARKDOWN }
    ∧ validateInput [("response_format", "json")] = some { response_format := ResponseFormat.JSON }
    ∧ validateInput [("response_format", "markdown")]
        = some { response_format := ResponseFormat.MARKDOWN } := by
  refine ⟨?_, ?_, rfl, rfl, rfl⟩
  · intro s h1 h2
    have hp : parseResponseFormat s = none := by
      simp only [parseResponseFormat, beq_iff_eq]
      rw [if_neg h1, if_neg h2]
    have hv : validateInput [("response_format", s)] = none := by
      simp [validateInput, hp]
    exact ⟨hv, fun remote => by simp [invokeTool, hv]⟩
  · intro fields k v hmem hk
    have hall : ¬ (fields.all (fun kv => kv.1 == "response_format") = true) := by
      intro hall
      have h2 := List.all_eq_true.mp hall (k, v) hmem
      simp only [beq_iff_eq] at h2
      exact hk h2
    have hv : validateInput fields = none := by
      unfold validateInput
      rw [if_neg hall]
    exact ⟨hv, fun remote => by simp [invokeTool, hv]⟩

/-- Claim C7, witness: the unknown enum value "xml" and the unknown field
"verbose" are both rejected, independently of the remote behaviour. -/
theorem claim_C7_witness :
    ("xml" : String) ≠ "markdown"
    ∧ ("xml" : String) ≠ "json"
    ∧ (validateInput [("response_format", "xml")] = none
      ∧ ∀ remote, invokeTool [("response_format", "xml")] remote = none)
    ∧ ("verbose", "yes") ∈ [("response_format", "markdown"), ("verbose", "yes")]
    ∧ ("verbose" : String) ≠ "response_format"
    ∧ (validateInput [("response_format", "markdown"), ("verbose", "yes")] = none
      ∧ ∀ remote,
          invokeTool [("response_format", "markdown"), ("verbose", "yes")] remote = none) := by
  refine ⟨by decide, by decide, claim_C7.1 "xml" (by decide) (by decide), ?_, by decide, ?_⟩
  · exact List.mem_cons_of_mem _ (List.mem_cons_self _ _)
  · exact claim_C7.2.1 [("response_format", "markdown"), ("verbose", "yes")] "verbose" "yes"
      (List.mem_cons_of_mem _ (List.mem_cons_self _ _)) (by decide)

/-- Claim C8: every string the tool returns is produced by exactly one of
the two templates — the success rendering precisely when the request
succeeded, the error rendering precisely when it failed and the classifier
returned a message; never both and never a mix. -/
theorem claim_C8 (params : ByteflowGetHealthInput) (remote : RemoteBehavior) (out : String)
    (h : byteflow_get_health params remote = Except.ok out) :
    ((∃ d, make_api_request remote = Except.ok d
        ∧ out = renderSuccess params.response_format d)
      ∧ ∀ e, make_api_request remote ≠ Except.error e)
    ∨ ((∃ e msg, make_api_request remote = Except.error e
          ∧ handle_api_error e = Except.ok msg
          ∧ out = renderError params.response_format msg)
      ∧ ∀ d, make_api_request remote ≠ Except.ok d) := by
  cases hm : make_api_request remote with
  | ok d =>
    simp only [byteflow_get_health, hm, Except.ok.injEq] at h
    left
    exact ⟨⟨d, rfl, h.symm⟩, fun e he => Except.noConfusion he⟩
  | error e =>
    simp only [byteflow_get_health, hm] at h
    cases he : handle_api_error e with
    | ok msg =>
      simp only [he, Except.ok.injEq] at h
      right
      exact ⟨⟨e, msg, rfl, he, h.symm⟩, fun d hd => Except.noConfusion hd⟩
    | error e2 =>
      simp only [he] at h
      exact Except.noConfusion h

/-- Claim C8, witness: the markdown success scenario takes exactly the
success branch of the disjunction. -/
theorem claim_C8_witness :
    byteflow_get_health { response_format := ResponseFormat.MARKDOWN }
        (RemoteBehavior.success [("status", PyValue.pystr "UP")])
      = Except.ok "Byteflow API Status: UP"
    ∧ (((∃ d, make_api_request (RemoteBehavior.success [("status", PyValue.pystr "UP")])
            = Except.ok d
          ∧ "Byteflow API Status: UP" = renderSuccess ResponseFormat.MARKDOWN d)
        ∧ ∀ e, make_api_request (RemoteBehavior.success [("status", PyValue.pystr "UP")])
            ≠ Except.error e)
      ∨ ((∃ e msg, make_api_request (RemoteBehavior.success [("status", PyValue.pystr "UP")])
            = Except.error e
          ∧ handle_api_error e = Except.ok msg
          ∧ "Byteflow API Status: UP" = renderError ResponseFormat.MARKDOWN msg)
        ∧ ∀ d, make_api_request (RemoteBehavior.success [("status", PyValue.pystr "UP")])
            ≠ Except.ok d)) := by
  have h : byteflow_get_health { response_format := ResponseFormat.MARKDOWN }
      (RemoteBehavior.success [("status", PyValue.pystr "UP")])
      = Except.ok "Byteflow API Status: UP" := rfl
  exact ⟨h, claim_C8 { response_format := ResponseFormat.MARKDOWN }
    (RemoteBehavior.success [("status", PyValue.pystr "UP")]) "Byteflow API Status: UP" h⟩

/-- Claim C10: every message the classifier returns begins with the prefix
"Error: ", and consequently every markdown-format output produced on a
failing request begins with "Byteflow API Status: Error - Error: ". -/
theorem claim_C10 :
    (∀ e msg, handle_api_error e = Except.ok msg → ∃ t, msg = "Error: " ++ t)
    ∧ (∀ remote e out, make_api_request remote = Except.error e →
        byteflow_get_health { response_format := ResponseFormat.MARKDOWN } remote
          = Except.ok out →
        ∃ t, out = "Byteflow API Status: Error - Error: " ++ t) := by
  have part1 : ∀ e msg, handle_api_error e = Except.ok msg → ∃ t, msg = "Error: " ++ t := by
    intro e msg h
    cases e with
    | httpStatusError r =>
      simp only [handle_api_error] at h
      split at h
      · cases Except.ok.inj h
        exact ⟨"Resource not found.", by decide⟩
      · split at h
        · cases Except.ok.inj h
          exact ⟨"Permission denied.", by decide⟩
        · split at h
          · cases Except.ok.inj h
            exact ⟨"Authentication failed.", by decide⟩
          · split at h
            · cases Except.ok.inj h
              exact ⟨"Rate limit exceeded.", by decide⟩
            · split at h
              · rename_i error_detail heq
                cases Except.ok.inj h
                refine ⟨"API request failed with status "
                  ++ (toString r.status_code ++ (": " ++ pyStr error_detail)), ?_⟩
                rw [show ("Error: API request failed with status " : String)
                  = "Error: " ++ "API request failed with status " from by decide]
                simp only [strApp_assoc]
              · split at h
                · cases Except.ok.inj h
                  refine ⟨"API request failed with status "
                    ++ (toString r.status_code ++ (": " ++ r.text)), ?_⟩
                  rw [show ("Error: API request failed with status " : String)
                    = "Error: " ++ "API request failed with status " from by decide]
                  simp only [strApp_assoc]
                · exact Except.noConfusion h
    | timeoutException m =>
      cases Except.ok.inj h
      exact ⟨"Request timed out.", by decide⟩
    | readError m =>
      cases Except.ok.inj h
      refine ⟨"Network request failed: " ++ m, ?_⟩
      rw [show ("Error: Network request failed: " : String)
        = "Error: " ++ "Network request failed: " from by decide]
      exact strApp_assoc _ _ _
    | requestError m =>
      cases Except.ok.inj h
      refine ⟨"Network request failed: " ++ m, ?_⟩
      rw [show ("Error: Network request failed: " : String)
        = "Error: " ++ "Network request failed: " from by decide]
      exact strApp_assoc _ _ _
    | jsonDecodeError m =>
      cases Except.ok.inj h
      refine ⟨"JSONDecodeError: " ++ m, ?_⟩
      rw [show ("Error: JSONDecodeError: " : String)
        = "Error: " ++ "JSONDecodeError: " from by decide]
      exact strApp_assoc _ _ _
    | otherException ty m =>
      cases Except.ok.inj h
      exact ⟨ty ++ (": " ++ m), by simp only [strApp_assoc]⟩
  refine ⟨part1, ?_⟩
  intro remote e out hm h
  simp only [byteflow_get_health, hm] at h
  cases he : handle_api_error e with
  | error e2 =>
    simp only [he] at h
    exact Except.noConfusion h
  | ok msg =>
    simp only [he, Except.ok.injEq] at h
    obtain ⟨t, rfl⟩ := part1 e msg he
    have key : ("Byteflow API Status: Error - " : String) ++ ("Error: " ++ t)
        = "Byteflow API Status: Error - Error: " ++ t := by
      rw [← strApp_assoc]
      rw [show ("Byteflow API Status: Error - " : String) ++ "Error: "
        = "Byteflow API Status: Error - Error: " from by decide]
    rw [← h]
    simp only [renderError, key, applyCharacterLimit]
    split
    · rw [pySlice_append _ _ _
        (show ("Byteflow API Status: Error - Error: " : String).length
          ≤ CHARACTER_LIMIT - 3 from by decide)]
      exact ⟨pySlice t (CHARACTER_LIMIT - 3
        - ("Byteflow API Status: Error - Error: " : String).length) ++ "...",
        strApp_assoc _ _ _⟩
    · exact ⟨t, rfl⟩

/-- Claim C10, witness: the timeout message starts with "Error: ", and the
markdown output for an HTTP 404 starts with
"Byteflow API Status: Error - Error: ". -/
theorem claim_C10_witness :
    (handle_api_error (PyExc.timeoutException "took too long")
        = Except.ok "Error: Request timed out."
      ∧ ∃ t, ("Error: Request timed out." : String) = "Error: " ++ t)
    ∧ (make_api_request (RemoteBehavior.statusError
          { status_code := 404, text := "nope", jsonBody := none })
        = Except.error (PyExc.httpStatusError
          { status_code := 404, text := "nope", jsonBody := none })
      ∧ byteflow_get_health { response_format := ResponseFormat.MARKDOWN }
          (RemoteBehavior.statusError
            { status_code := 404, text := "nope", jsonBody := none })
        = Except.ok "Byteflow API Status: Error - Error: Resource not found."
      ∧ ∃ t, ("Byteflow API Status: Error - Error: Resource not found." : String)
          = "Byteflow API Status: Error - Error: " ++ t) := by
  have h1 : handle_api_error (PyExc.timeoutException "took too long")
      = Except.ok "Error: Request timed out." := rfl
  have hm : make_api_request (RemoteBehavior.statusError
        { status_code := 404, text := "nope", jsonBody := none })
      = Except.error (PyExc.httpStatusError
        { status_code := 404, text := "nope", jsonBody := none }) := rfl
  have h2 : byteflow_get_health { response_format := ResponseFormat.MARKDOWN }
      (RemoteBehavior.statusError { status_code := 404, text := "nope", jsonBody := none })
      = Except.ok "Byteflow API Status: Error - Error: Resource not found." := rfl
  exact ⟨⟨h1, claim_C10.1 (PyExc.timeoutException "took too long") _ h1⟩,
    ⟨hm, h2, claim_C10.2 _ _ _ hm h2⟩⟩

theorem json_long_length :
    (pyRepr (PyValue.pydict [("status", PyValue.pystr longStatus)])).length = 25014 := by
  rw [pyRepr_pydict_single, pyRepr_pystr]
  simp only [String.length_append, pyReprStr_longStatus_length]
  decide

/-- Claim C1, counterexample: the truncation is not applied to the JSON
response format: with a 25000-character status value the rendered (and
returned) output has length 25014, which exceeds 25000 and in particular
is not exactly 25000. -/
theorem claim_C1_cex :
    byteflow_get_health { response_format := ResponseFormat.JSON }
        (RemoteBehavior.success [("status", PyValue.pystr longStatus)])
      = Except.ok (renderSuccess ResponseFormat.JSON [("status", PyValue.pystr longStatus)])
    ∧ (renderSuccess ResponseFormat.JSON [("status", PyValue.pystr longStatus)]).length = 25014
    ∧ (renderSuccess ResponseFormat.JSON [("status", PyValue.pystr longStatus)]).length ≠ 25000 := by
  have hlen : (renderSuccess ResponseFormat.JSON [("status", PyValue.pystr longStatus)]).length
      = 25014 := by
    rw [show renderSuccess ResponseFormat.JSON [("status", PyValue.pystr longStatus)]
        = pyRepr (PyValue.pydict [("status", PyValue.pystr longStatus)]) from rfl]
    exact json_long_length
  refine ⟨rfl, hlen, ?_⟩
  rw [hlen]
  decide

/-- Claim C1, amended: the truncation applies to the markdown format only
(the JSON-format output is returned whole, as the counterexample shows):
for every markdown invocation whose rendered output exceeds 25000
characters, the returned string is the first 24997 characters of the
rendered output followed by "...", has length exactly 25000, and ends
with the ellipsis marker. -/
theorem claim_C1 (remote : RemoteBehavior) (rendered : String)
    (hr : renderMarkdownRaw remote = some rendered)
    (hlen : rendered.length > CHARACTER_LIMIT) :
    byteflow_get_health { response_format := ResponseFormat.MARKDOWN } remote
      = Except.ok (pySlice rendered (CHARACTER_LIMIT - 3) ++ "...")
    ∧ (pySlice rendered (CHARACTER_LIMIT - 3) ++ "...").length = CHARACTER_LIMIT
    ∧ ∃ t, pySlice rendered (CHARACTER_LIMIT - 3) ++ "..." = t ++ "..." := by
  have hlen2 : (pySlice rendered (CHARACTER_LIMIT - 3) ++ "...").length = CHARACTER_LIMIT := by
    rw [String.length_append, pySlice_length]
    have hc : CHARACTER_LIMIT = 25000 := rfl
    rw [hc] at hlen ⊢
    rw [Nat.min_eq_left (by omega)]
    decide
  refine ⟨?_, hlen2, ⟨pySlice rendered (CHARACTER_LIMIT - 3), rfl⟩⟩
  cases hm : make_api_request remote with
  | ok d =>
    simp only [renderMarkdownRaw, hm, Option.some.injEq] at hr
    simp only [byteflow_get_health, hm, renderSuccess, applyCharacterLimit]
    rw [hr, if_pos hlen]
  | error e =>
    cases he : handle_api_error e with
    | ok msg =>
      simp only [renderMarkdownRaw, hm, he, Option.some.injEq] at hr
      simp only [byteflow_get_health, hm, he, renderError, applyCharacterLimit]
      rw [hr, if_pos hlen]
    | error e2 =>
      simp only [renderMarkdownRaw, hm, he] at hr
      exact Option.noConfusion hr

/-- Claim C1, witness: with a 25000-character status value the markdown
rendering exceeds the limit and the returned string is truncated to
exactly 25000 characters ending in "...". -/
theorem claim_C1_witness :
    renderMarkdownRaw (RemoteBehavior.success [("status", PyValue.pystr longStatus)])
      = some ("Byteflow API Status: " ++ longStatus)
    ∧ ("Byteflow API Status: " ++ longStatus).length > CHARACTER_LIMIT
    ∧ (byteflow_get_health { response_format := ResponseFormat.MARKDOWN }
          (RemoteBehavior.success [("status", PyValue.pystr longStatus)])
        = Except.ok (pySlice ("Byteflow API Status: " ++ longStatus) (CHARACTER_LIMIT - 3)
            ++ "...")
      ∧ (pySlice ("Byteflow API Status: " ++ longStatus) (CHARACTER_LIMIT - 3)
            ++ "...").length = CHARACTER_LIMIT
      ∧ ∃ t, pySlice ("Byteflow API Status: " ++ longStatus) (CHARACTER_LIMIT - 3)
            ++ "..." = t ++ "...") := by
  have hr : renderMarkdownRaw (RemoteBehavior.success [("status", PyValue.pystr longStatus)])
      = some ("Byteflow API Status: " ++ longStatus) := rfl
  have hlen : ("Byteflow API Status: " ++ longStatus).length > CHARACTER_LIMIT := by
    rw [String.length_append, longStatus_length]
    decide
  exact ⟨hr, hlen, claim_C1 (RemoteBehavior.success [("status", PyValue.pystr longStatus)])
    ("Byteflow API Status: " ++ longStatus) hr hlen⟩

end Server
